import Mathlib

/-!
Shallow embedding of `rotors_gazebo_plugins/include/rotors_gazebo_plugins/fw_parameters.h`.

The header defines default physical and aerodynamic parameters for the Techpod
fixed-wing aircraft model (doubles and fixed-size Eigen vectors) and a loader
`FWAerodynamicParameters::LoadAeroParamsYAML` that overrides the aerodynamic
fields from a YAML file.

Modelling choices:
- C++ `double` is modelled as `ℚ`; every default in the header is an exact
  decimal literal except the deflection bounds, which use `M_PI` — for those we
  use the exact rational value of the IEEE-754 double `M_PI` (the C++
  computation rounds each arithmetic step, ours is exact; sign and ordering of
  the results agree).
- A YAML mapping is an association list `Doc` from key strings to values; a
  value is a convertible scalar, a sequence of convertible scalars, or `other`
  (anything `as<double>` / `as<std::vector<double>>` cannot convert).
- A filesystem read is `Option Doc`: `none` means `YAML::LoadFile` threw
  (missing or unparseable file), modelled as `configLoadError`.
- All key-level failures are `configFormatError`: `as<T>()` on a missing key
  throws `YAML::InvalidNode`, `as<T>()` on an unconvertible value throws
  `YAML::BadConversion`, and a sequence whose length differs from the Eigen
  target's compile-time size trips `assert(vec.size() == SizeAtCompileTime)`
  in `YAMLReadEigenVector`; each of these aborts the load at that key.
- The C++ method mutates the object field by field and an exception propagates
  out of the method, so the loader is modelled as
  `state → state × Option LoadError` where the returned state is the (possibly
  partially updated) state at the moment the call returns or throws.
-/

/-- A YAML value as seen through `as<double>` / `as<std::vector<double>>`:
a convertible numeric scalar, a sequence of convertible numeric scalars, or
anything else (a map, a non-numeric scalar, a sequence with a non-numeric
element, ...), which both conversions reject. -/
inductive Yval where
  | scalar (q : ℚ)
  | seq (l : List ℚ)
  | other
deriving DecidableEq

/-- A parsed YAML mapping: an association list from key names to values. -/
abbrev Doc := List (String × Yval)

/-- Lookup of a key in a YAML mapping (first binding wins). -/
def Doc.find : Doc → String → Option Yval
  | [], _ => none
  | (k, v) :: d, key => if k = key then some v else Doc.find d key

/-- The two failure kinds of the loader: `configLoadError` when
`YAML::LoadFile` itself throws (missing or unparseable file), and
`configFormatError` for any key-level failure (missing key, unconvertible
value, or wrong element count). -/
inductive LoadError where
  | configLoadError
  | configFormatError
deriving DecidableEq

/-- YAMLReadParam from the header: `value = node[name].as<T>()`. Succeeds
exactly when the key is present and its value is a convertible scalar. -/
def YAMLReadParam (d : Doc) (name : String) : Except LoadError ℚ :=
  match Doc.find d name with
  | some (Yval.scalar q) => Except.ok q
  | _ => Except.error LoadError.configFormatError

/-- YAMLReadEigenVector from the header:
`vec = node[name].as<std::vector<double>>(); assert(vec.size() == SizeAtCompileTime); value = Eigen::Map(...)`.
Succeeds exactly when the key is present, its value is a sequence of
convertible scalars, and the length equals the Eigen target's compile-time
size `n`. -/
def YAMLReadEigenVector (d : Doc) (name : String) (n : ℕ) : Except LoadError (List ℚ) :=
  match Doc.find d name with
  | some (Yval.seq l) =>
      if l.length = n then Except.ok l else Except.error LoadError.configFormatError
  | _ => Except.error LoadError.configFormatError

/-- Eigen::Vector2d. -/
structure Vector2d where
  x : ℚ
  y : ℚ
deriving DecidableEq

/-- Eigen::Vector3d. -/
structure Vector3d where
  x : ℚ
  y : ℚ
  z : ℚ
deriving DecidableEq

/-- Eigen::Vector4d. -/
structure Vector4d where
  x : ℚ
  y : ℚ
  z : ℚ
  w : ℚ
deriving DecidableEq

/-- Eigen::Matrix3d, row major as filled by `operator<<` in the header. -/
structure Matrix3d where
  m00 : ℚ
  m01 : ℚ
  m02 : ℚ
  m10 : ℚ
  m11 : ℚ
  m12 : ℚ
  m20 : ℚ
  m21 : ℚ
  m22 : ℚ
deriving DecidableEq

/-- Entry access `m(i, j)` of a Matrix3d. -/
def Matrix3d.get (m : Matrix3d) (i j : Fin 3) : ℚ :=
  match i.val, j.val with
  | 0, 0 => m.m00
  | 0, 1 => m.m01
  | 0, 2 => m.m02
  | 1, 0 => m.m10
  | 1, 1 => m.m11
  | 1, 2 => m.m12
  | 2, 0 => m.m20
  | 2, 1 => m.m21
  | _, _ => m.m22

-- Default vehicle parameters (Techpod model), from the header.

def kDefaultMass : ℚ := 2.65
def kDefaultWingSpan : ℚ := 2.59
def kDefaultWingSurface : ℚ := 0.47
def kDefaultChordLength : ℚ := 0.18

def kDefaultInertiaXx : ℚ := 0.16632
def kDefaultInertiaXy : ℚ := 0.0
def kDefaultInertiaXz : ℚ := 0.0755
def kDefaultInertiaYy : ℚ := 0.3899
def kDefaultInertiaYz : ℚ := 0.0
def kDefaultInertiaZz : ℚ := 0.5243

-- Default aerodynamic parameter values (Techpod model), from the header.

def kDefaultAlphaMax : ℚ := 0.27
def kDefaultAlphaMin : ℚ := -0.27

def kDefaultCDragAlpha : Vector3d := ⟨0.1360, -0.6737, 5.4546⟩
def kDefaultCDragBeta : Vector3d := ⟨0.0195, 0.0, -0.3842⟩
def kDefaultCDragDeltaAil : Vector3d := ⟨0.0195, 1.4205e-4, 7.5037e-6⟩
def kDefaultCDragDeltaFlp : Vector3d := ⟨0.0195, 2.7395e-4, 1.23e-5⟩

def kDefaultCSideForceBeta : Vector2d := ⟨0.0, -0.3073⟩

def kDefaultCLiftAlpha : Vector4d := ⟨0.2127, 10.8060, -46.8324, 60.6017⟩
def kDefaultCLiftDeltaAil : Vector2d := ⟨0.3304, 0.0048⟩
def kDefaultCLiftDeltaFlp : Vector2d := ⟨0.3304, 0.0073⟩

def kDefaultCRollMomentBeta : Vector2d := ⟨0.0, -0.0154⟩
def kDefaultCRollMomentP : Vector2d := ⟨0.0, -0.1647⟩
def kDefaultCRollMomentR : Vector2d := ⟨0.0, 0.0117⟩
def kDefaultCRollMomentDeltaAil : Vector2d := ⟨0.0, 0.0570⟩
def kDefaultCRollMomentDeltaFlp : Vector2d := ⟨0.0, 0.001⟩

def kDefaultCPitchMomentAlpha : Vector2d := ⟨0.0435, -2.9690⟩
def kDefaultCPitchMomentQ : Vector2d := ⟨-0.1173, -106.1541⟩
def kDefaultCPitchMomentDeltaElv : Vector2d := ⟨-0.1173, -6.1308⟩

def kDefaultCYawMomentBeta : Vector2d := ⟨0.0, 0.0430⟩
def kDefaultCYawMomentR : Vector2d := ⟨0.0, -0.0827⟩
def kDefaultCYawMomentDeltaRud : Vector2d := ⟨0.0, 0.06⟩

def kDefaultCThrust : Vector3d := ⟨0.0, 14.7217, 0.0⟩

/-- Exact rational value of the IEEE-754 double constant `M_PI`
(884279719003555 / 2^48 ≈ 3.14159265358979311600). -/
def mPi : ℚ := 884279719003555 / 281474976710656

-- Default values for fixed-wing controls (Techpod model), from the header.

def kDefaultControlSurfaceDeflectionMin : ℚ := -20.0 * mPi / 180.0
def kDefaultControlSurfaceDeflectionMax : ℚ := 20.0 * mPi / 180.0

def kDefaultThrottleChannel : ℤ := 5
def kDefaultAileronLeftChannel : ℤ := 4
def kDefaultAileronRightChannel : ℤ := 0
def kDefaultElevatorChannel : ℤ := 1
def kDefaultFlapChannel : ℤ := 2
def kDefaultRudderChannel : ℤ := 3

/-- struct ControlSurface: an actuator channel plus a deflection range. -/
structure ControlSurface where
  channel : ℤ
  deflection_min : ℚ
  deflection_max : ℚ
deriving DecidableEq

/-- The ControlSurface constructor, with all three arguments explicit: the C++
constructor accepts any `defl_min` / `defl_max` (defaulting to the
kDefaultControlSurfaceDeflection constants) and performs no validation. -/
def ControlSurface.ctor (cs_channel : ℤ) (defl_min defl_max : ℚ) : ControlSurface :=
  ⟨cs_channel, defl_min, defl_max⟩

/-- struct FWAerodynamicParameters: the two angle-of-attack scalars and the
twenty named coefficient vectors. -/
structure FWAerodynamicParameters where
  alpha_max : ℚ
  alpha_min : ℚ
  c_drag_alpha : Vector3d
  c_drag_beta : Vector3d
  c_drag_delta_ail : Vector3d
  c_drag_delta_flp : Vector3d
  c_side_force_beta : Vector2d
  c_lift_alpha : Vector4d
  c_lift_delta_ail : Vector2d
  c_lift_delta_flp : Vector2d
  c_roll_moment_beta : Vector2d
  c_roll_moment_p : Vector2d
  c_roll_moment_r : Vector2d
  c_roll_moment_delta_ail : Vector2d
  c_roll_moment_delta_flp : Vector2d
  c_pitch_moment_alpha : Vector2d
  c_pitch_moment_q : Vector2d
  c_pitch_moment_delta_elv : Vector2d
  c_yaw_moment_beta : Vector2d
  c_yaw_moment_r : Vector2d
  c_yaw_moment_delta_rud : Vector2d
  c_thrust : Vector3d
deriving DecidableEq

/-- The FWAerodynamicParameters default constructor: every field initialized
from its named kDefault constant. -/
def FWAerodynamicParameters.default : FWAerodynamicParameters where
  alpha_max := kDefaultAlphaMax
  alpha_min := kDefaultAlphaMin
  c_drag_alpha := kDefaultCDragAlpha
  c_drag_beta := kDefaultCDragBeta
  c_drag_delta_ail := kDefaultCDragDeltaAil
  c_drag_delta_flp := kDefaultCDragDeltaFlp
  c_side_force_beta := kDefaultCSideForceBeta
  c_lift_alpha := kDefaultCLiftAlpha
  c_lift_delta_ail := kDefaultCLiftDeltaAil
  c_lift_delta_flp := kDefaultCLiftDeltaFlp
  c_roll_moment_beta := kDefaultCRollMomentBeta
  c_roll_moment_p := kDefaultCRollMomentP
  c_roll_moment_r := kDefaultCRollMomentR
  c_roll_moment_delta_ail := kDefaultCRollMomentDeltaAil
  c_roll_moment_delta_flp := kDefaultCRollMomentDeltaFlp
  c_pitch_moment_alpha := kDefaultCPitchMomentAlpha
  c_pitch_moment_q := kDefaultCPitchMomentQ
  c_pitch_moment_delta_elv := kDefaultCPitchMomentDeltaElv
  c_yaw_moment_beta := kDefaultCYawMomentBeta
  c_yaw_moment_r := kDefaultCYawMomentR
  c_yaw_moment_delta_rud := kDefaultCYawMomentDeltaRud
  c_thrust := kDefaultCThrust

/-- The recognized keys of LoadAeroParamsYAML, one constructor per field read
by the method body. -/
inductive AeroKey where
  | alpha_max
  | alpha_min
  | c_drag_alpha
  | c_drag_beta
  | c_drag_delta_ail
  | c_drag_delta_flp
  | c_side_force_beta
  | c_lift_alpha
  | c_lift_delta_ail
  | c_lift_delta_flp
  | c_roll_moment_beta
  | c_roll_moment_p
  | c_roll_moment_r
  | c_roll_moment_delta_ail
  | c_roll_moment_delta_flp
  | c_pitch_moment_alpha
  | c_pitch_moment_q
  | c_pitch_moment_delta_elv
  | c_yaw_moment_beta
  | c_yaw_moment_r
  | c_yaw_moment_delta_rud
  | c_thrust
deriving DecidableEq, Fintype

/-- The YAML key string of each recognized key — the `#item` string the
READ_PARAM / READ_EIGEN_VECTOR macros pass to the readers. -/
def keyName : AeroKey → String
  | AeroKey.alpha_max => "alpha_max"
  | AeroKey.alpha_min => "alpha_min"
  | AeroKey.c_drag_alpha => "c_drag_alpha"
  | AeroKey.c_drag_beta => "c_drag_beta"
  | AeroKey.c_drag_delta_ail => "c_drag_delta_ail"
  | AeroKey.c_drag_delta_flp => "c_drag_delta_flp"
  | AeroKey.c_side_force_beta => "c_side_force_beta"
  | AeroKey.c_lift_alpha => "c_lift_alpha"
  | AeroKey.c_lift_delta_ail => "c_lift_delta_ail"
  | AeroKey.c_lift_delta_flp => "c_lift_delta_flp"
  | AeroKey.c_roll_moment_beta => "c_roll_moment_beta"
  | AeroKey.c_roll_moment_p => "c_roll_moment_p"
  | AeroKey.c_roll_moment_r => "c_roll_moment_r"
  | AeroKey.c_roll_moment_delta_ail => "c_roll_moment_delta_ail"
  | AeroKey.c_roll_moment_delta_flp => "c_roll_moment_delta_flp"
  | AeroKey.c_pitch_moment_alpha => "c_pitch_moment_alpha"
  | AeroKey.c_pitch_moment_q => "c_pitch_moment_q"
  | AeroKey.c_pitch_moment_delta_elv => "c_pitch_moment_delta_elv"
  | AeroKey.c_yaw_moment_beta => "c_yaw_moment_beta"
  | AeroKey.c_yaw_moment_r => "c_yaw_moment_r"
  | AeroKey.c_yaw_moment_delta_rud => "c_yaw_moment_delta_rud"
  | AeroKey.c_thrust => "c_thrust"

/-- Arity of each recognized key: `none` for the two scalar keys (read with
READ_PARAM), `some n` for a vector key whose Eigen target has compile-time
size `n` (read with READ_EIGEN_VECTOR). -/
def vectorArity : AeroKey → Option ℕ
  | AeroKey.alpha_max => none
  | AeroKey.alpha_min => none
  | AeroKey.c_drag_alpha => some 3
  | AeroKey.c_drag_beta => some 3
  | AeroKey.c_drag_delta_ail => some 3
  | AeroKey.c_drag_delta_flp => some 3
  | AeroKey.c_side_force_beta => some 2
  | AeroKey.c_lift_alpha => some 4
  | AeroKey.c_lift_delta_ail => some 2
  | AeroKey.c_lift_delta_flp => some 2
  | AeroKey.c_roll_moment_beta => some 2
  | AeroKey.c_roll_moment_p => some 2
  | AeroKey.c_roll_moment_r => some 2
  | AeroKey.c_roll_moment_delta_ail => some 2
  | AeroKey.c_roll_moment_delta_flp => some 2
  | AeroKey.c_pitch_moment_alpha => some 2
  | AeroKey.c_pitch_moment_q => some 2
  | AeroKey.c_pitch_moment_delta_elv => some 2
  | AeroKey.c_yaw_moment_beta => some 2
  | AeroKey.c_yaw_moment_r => some 2
  | AeroKey.c_yaw_moment_delta_rud => some 2
  | AeroKey.c_thrust => some 3

/-- Read one recognized key from the document: READ_PARAM for the scalar keys
(result wrapped as a one-element list), READ_EIGEN_VECTOR for vector keys.
The outcome depends only on the document, never on the store. -/
def readKey (d : Doc) (k : AeroKey) : Except LoadError (List ℚ) :=
  match vectorArity k with
  | none =>
      match YAMLReadParam d (keyName k) with
      | Except.ok q => Except.ok [q]
      | Except.error e => Except.error e
  | some n => YAMLReadEigenVector d (keyName k) n

/-- Write a successfully read value into its field: the assignment
`value = ...` at the end of the reader. The list always has the arity checked
by `readKey`; on any other length the store is returned unchanged (that branch
is unreachable from the loader). -/
def setKey (s : FWAerodynamicParameters) : AeroKey → List ℚ → FWAerodynamicParameters
  | AeroKey.alpha_max, l =>
      match l with
      | [q] => { s with alpha_max := q }
      | _ => s
  | AeroKey.alpha_min, l =>
      match l with
      | [q] => { s with alpha_min := q }
      | _ => s
  | AeroKey.c_drag_alpha, l =>
      match l with
      | [a, b, c] => { s with c_drag_alpha := ⟨a, b, c⟩ }
      | _ => s
  | AeroKey.c_drag_beta, l =>
      match l with
      | [a, b, c] => { s with c_drag_beta := ⟨a, b, c⟩ }
      | _ => s
  | AeroKey.c_drag_delta_ail, l =>
      match l with
      | [a, b, c] => { s with c_drag_delta_ail := ⟨a, b, c⟩ }
      | _ => s
  | AeroKey.c_drag_delta_flp, l =>
      match l with
      | [a, b, c] => { s with c_drag_delta_flp := ⟨a, b, c⟩ }
      | _ => s
  | AeroKey.c_side_force_beta, l =>
      match l with
      | [a, b] => { s with c_side_force_beta := ⟨a, b⟩ }
      | _ => s
  | AeroKey.c_lift_alpha, l =>
      match l with
      | [a, b, c, e] => { s with c_lift_alpha := ⟨a, b, c, e⟩ }
      | _ => s
  | AeroKey.c_lift_delta_ail, l =>
      match l with
      | [a, b] => { s with c_lift_delta_ail := ⟨a, b⟩ }
      | _ => s
  | AeroKey.c_lift_delta_flp, l =>
      match l with
      | [a, b] => { s with c_lift_delta_flp := ⟨a, b⟩ }
      | _ => s
  | AeroKey.c_roll_moment_beta, l =>
      match l with
      | [a, b] => { s with c_roll_moment_beta := ⟨a, b⟩ }
      | _ => s
  | AeroKey.c_roll_moment_p, l =>
      match l with
      | [a, b] => { s with c_roll_moment_p := ⟨a, b⟩ }
      | _ => s
  | AeroKey.c_roll_moment_r, l =>
      match l with
      | [a, b] => { s with c_roll_moment_r := ⟨a, b⟩ }
      | _ => s
  | AeroKey.c_roll_moment_delta_ail, l =>
      match l with
      | [a, b] => { s with c_roll_moment_delta_ail := ⟨a, b⟩ }
      | _ => s
  | AeroKey.c_roll_moment_delta_flp, l =>
      match l with
      | [a, b] => { s with c_roll_moment_delta_flp := ⟨a, b⟩ }
      | _ => s
  | AeroKey.c_pitch_moment_alpha, l =>
      match l with
      | [a, b] => { s with c_pitch_moment_alpha := ⟨a, b⟩ }
      | _ => s
  | AeroKey.c_pitch_moment_q, l =>
      match l with
      | [a, b] => { s with c_pitch_moment_q := ⟨a, b⟩ }
      | _ => s
  | AeroKey.c_pitch_moment_delta_elv, l =>
      match l with
      | [a, b] => { s with c_pitch_moment_delta_elv := ⟨a, b⟩ }
      | _ => s
  | AeroKey.c_yaw_moment_beta, l =>
      match l with
      | [a, b] => { s with c_yaw_moment_beta := ⟨a, b⟩ }
      | _ => s
  | AeroKey.c_yaw_moment_r, l =>
      match l with
      | [a, b] => { s with c_yaw_moment_r := ⟨a, b⟩ }
      | _ => s
  | AeroKey.c_yaw_moment_delta_rud, l =>
      match l with
      | [a, b] => { s with c_yaw_moment_delta_rud := ⟨a, b⟩ }
      | _ => s
  | AeroKey.c_thrust, l =>
      match l with
      | [a, b, c] => { s with c_thrust := ⟨a, b, c⟩ }
      | _ => s

/-- Projection of the field governed by a key, as a list of its components
(one element for the scalar keys). Used to state frame properties. -/
def getField (s : FWAerodynamicParameters) : AeroKey → List ℚ
  | AeroKey.alpha_max => [s.alpha_max]
  | AeroKey.alpha_min => [s.alpha_min]
  | AeroKey.c_drag_alpha => [s.c_drag_alpha.x, s.c_drag_alpha.y, s.c_drag_alpha.z]
  | AeroKey.c_drag_beta => [s.c_drag_beta.x, s.c_drag_beta.y, s.c_drag_beta.z]
  | AeroKey.c_drag_delta_ail => [s.c_drag_delta_ail.x, s.c_drag_delta_ail.y, s.c_drag_delta_ail.z]
  | AeroKey.c_drag_delta_flp => [s.c_drag_delta_flp.x, s.c_drag_delta_flp.y, s.c_drag_delta_flp.z]
  | AeroKey.c_side_force_beta => [s.c_side_force_beta.x, s.c_side_force_beta.y]
  | AeroKey.c_lift_alpha => [s.c_lift_alpha.x, s.c_lift_alpha.y, s.c_lift_alpha.z, s.c_lift_alpha.w]
  | AeroKey.c_lift_delta_ail => [s.c_lift_delta_ail.x, s.c_lift_delta_ail.y]
  | AeroKey.c_lift_delta_flp => [s.c_lift_delta_flp.x, s.c_lift_delta_flp.y]
  | AeroKey.c_roll_moment_beta => [s.c_roll_moment_beta.x, s.c_roll_moment_beta.y]
  | AeroKey.c_roll_moment_p => [s.c_roll_moment_p.x, s.c_roll_moment_p.y]
  | AeroKey.c_roll_moment_r => [s.c_roll_moment_r.x, s.c_roll_moment_r.y]
  | AeroKey.c_roll_moment_delta_ail => [s.c_roll_moment_delta_ail.x, s.c_roll_moment_delta_ail.y]
  | AeroKey.c_roll_moment_delta_flp => [s.c_roll_moment_delta_flp.x, s.c_roll_moment_delta_flp.y]
  | AeroKey.c_pitch_moment_alpha => [s.c_pitch_moment_alpha.x, s.c_pitch_moment_alpha.y]
  | AeroKey.c_pitch_moment_q => [s.c_pitch_moment_q.x, s.c_pitch_moment_q.y]
  | AeroKey.c_pitch_moment_delta_elv => [s.c_pitch_moment_delta_elv.x, s.c_pitch_moment_delta_elv.y]
  | AeroKey.c_yaw_moment_beta => [s.c_yaw_moment_beta.x, s.c_yaw_moment_beta.y]
  | AeroKey.c_yaw_moment_r => [s.c_yaw_moment_r.x, s.c_yaw_moment_r.y]
  | AeroKey.c_yaw_moment_delta_rud => [s.c_yaw_moment_delta_rud.x, s.c_yaw_moment_delta_rud.y]
  | AeroKey.c_thrust => [s.c_thrust.x, s.c_thrust.y, s.c_thrust.z]

/-- The fixed, hard-coded sequence in which the body of LoadAeroParamsYAML
reads the recognized keys. -/
def keyOrder : List AeroKey :=
  [AeroKey.alpha_max, AeroKey.alpha_min,
   AeroKey.c_drag_alpha, AeroKey.c_drag_beta, AeroKey.c_drag_delta_ail, AeroKey.c_drag_delta_flp,
   AeroKey.c_side_force_beta,
   AeroKey.c_lift_alpha, AeroKey.c_lift_delta_ail, AeroKey.c_lift_delta_flp,
   AeroKey.c_roll_moment_beta, AeroKey.c_roll_moment_p, AeroKey.c_roll_moment_r,
   AeroKey.c_roll_moment_delta_ail, AeroKey.c_roll_moment_delta_flp,
   AeroKey.c_pitch_moment_alpha, AeroKey.c_pitch_moment_q, AeroKey.c_pitch_moment_delta_elv,
   AeroKey.c_yaw_moment_beta, AeroKey.c_yaw_moment_r, AeroKey.c_yaw_moment_delta_rud,
   AeroKey.c_thrust]

/-- Sequential body of the loader: read and apply each key in order; the first
failing key stops the method (the C++ exception propagates), returning the
state as mutated so far together with the error. -/
def loadAux (d : Doc) : FWAerodynamicParameters → List AeroKey →
    FWAerodynamicParameters × Option LoadError
  | s, [] => (s, none)
  | s, k :: ks =>
      match readKey d k with
      | Except.ok l => loadAux d (setKey s k l) ks
      | Except.error e => (s, some e)

/-- FWAerodynamicParameters::LoadAeroParamsYAML. The `Option Doc` argument
models `YAML::LoadFile(yaml_path)`: `none` when the file is missing or not
parseable (the call throws before touching any field), `some d` when it parses
to the mapping `d`. -/
def FWAerodynamicParameters.LoadAeroParamsYAML (s : FWAerodynamicParameters)
    (file : Option Doc) : FWAerodynamicParameters × Option LoadError :=
  match file with
  | none => (s, some LoadError.configLoadError)
  | some d => loadAux d s keyOrder

/-- Prefix application used to describe partially completed loads: apply the
given keys in order, failing on the first key whose read fails. -/
def applyList (d : Doc) : FWAerodynamicParameters → List AeroKey →
    Except LoadError FWAerodynamicParameters
  | s, [] => Except.ok s
  | s, k :: ks =>
      match readKey d k with
      | Except.ok l => applyList d (setKey s k l) ks
      | Except.error e => Except.error e

/-- class FWParameters: physical constants, control surfaces and the
aerodynamic substructure. -/
structure FWParameters where
  mass_ : ℚ
  wing_span_ : ℚ
  wing_surface_ : ℚ
  chord_length_ : ℚ
  throttle_channel_ : ℤ
  inertia_ : Matrix3d
  aileron_left_ : ControlSurface
  aileron_right_ : ControlSurface
  elevator_ : ControlSurface
  flap_ : ControlSurface
  rudder_ : ControlSurface
  aero_params_ : FWAerodynamicParameters
deriving DecidableEq

/-- The FWParameters default constructor: scalar fields and channels from the
kDefault constants, each control surface built by the ControlSurface
constructor with its channel and the default deflection bounds, the inertia
matrix filled symmetrically from the six stored components, and the
aerodynamic substructure default constructed. -/
def FWParameters.default : FWParameters where
  mass_ := kDefaultMass
  wing_span_ := kDefaultWingSpan
  wing_surface_ := kDefaultWingSurface
  chord_length_ := kDefaultChordLength
  throttle_channel_ := kDefaultThrottleChannel
  inertia_ :=
    ⟨kDefaultInertiaXx, kDefaultInertiaXy, kDefaultInertiaXz,
     kDefaultInertiaXy, kDefaultInertiaYy, kDefaultInertiaYz,
     kDefaultInertiaXz, kDefaultInertiaYz, kDefaultInertiaZz⟩
  aileron_left_ := ControlSurface.ctor kDefaultAileronLeftChannel
    kDefaultControlSurfaceDeflectionMin kDefaultControlSurfaceDeflectionMax
  aileron_right_ := ControlSurface.ctor kDefaultAileronRightChannel
    kDefaultControlSurfaceDeflectionMin kDefaultControlSurfaceDeflectionMax
  elevator_ := ControlSurface.ctor kDefaultElevatorChannel
    kDefaultControlSurfaceDeflectionMin kDefaultControlSurfaceDeflectionMax
  flap_ := ControlSurface.ctor kDefaultFlapChannel
    kDefaultControlSurfaceDeflectionMin kDefaultControlSurfaceDeflectionMax
  rudder_ := ControlSurface.ctor kDefaultRudderChannel
    kDefaultControlSurfaceDeflectionMin kDefaultControlSurfaceDeflectionMax
  aero_params_ := FWAerodynamicParameters.default

/-- Calling `p.aero_params_.LoadAeroParamsYAML(path)` on a store: the member
method mutates only the aerodynamic substructure and the outcome propagates to
the caller. -/
def FWParameters.loadAeroParamsYAML (p : FWParameters) (file : Option Doc) :
    FWParameters × Option LoadError :=
  let r := p.aero_params_.LoadAeroParamsYAML file
  ({ p with aero_params_ := r.1 }, r.2)

/-- The states a store can be in during the program's lifecycle: default
constructed, then mutated only by load calls (successful or failed). -/
inductive FWParameters.Reachable : FWParameters → Prop where
  | dflt : FWParameters.Reachable FWParameters.default
  | load (p : FWParameters) (file : Option Doc) (h : FWParameters.Reachable p) :
      FWParameters.Reachable (p.loadAeroParamsYAML file).1

/-- A document for exercising the loader: all 22 recognized keys bound to
distinct sentinel values of the correct arity, declared in the reverse of the
order in which the loader reads them. -/
def sentinelDoc : Doc :=
  [("c_thrust", Yval.seq [147, 148, 149]),
   ("c_yaw_moment_delta_rud", Yval.seq [145, 146]),
   ("c_yaw_moment_r", Yval.seq [143, 144]),
   ("c_yaw_moment_beta", Yval.seq [141, 142]),
   ("c_pitch_moment_delta_elv", Yval.seq [139, 140]),
   ("c_pitch_moment_q", Yval.seq [137, 138]),
   ("c_pitch_moment_alpha", Yval.seq [135, 136]),
   ("c_roll_moment_delta_flp", Yval.seq [133, 134]),
   ("c_roll_moment_delta_ail", Yval.seq [131, 132]),
   ("c_roll_moment_r", Yval.seq [129, 130]),
   ("c_roll_moment_p", Yval.seq [127, 128]),
   ("c_roll_moment_beta", Yval.seq [125, 126]),
   ("c_lift_delta_flp", Yval.seq [123, 124]),
   ("c_lift_delta_ail", Yval.seq [121, 122]),
   ("c_lift_alpha", Yval.seq [117, 118, 119, 120]),
   ("c_side_force_beta", Yval.seq [115, 116]),
   ("c_drag_delta_flp", Yval.seq [112, 113, 114]),
   ("c_drag_delta_ail", Yval.seq [109, 110, 111]),
   ("c_drag_beta", Yval.seq [106, 107, 108]),
   ("c_drag_alpha", Yval.seq [103, 104, 105]),
   ("alpha_min", Yval.scalar 102),
   ("alpha_max", Yval.scalar 101)]

-- Helper lemmas about the readers and the loader body.

theorem YAMLReadParam_error {d : Doc} {name : String} {e : LoadError}
    (h : YAMLReadParam d name = Except.error e) : e = LoadError.configFormatError := by
  unfold YAMLReadParam at h
  split at h
  · exact Except.noConfusion h
  · cases h
    rfl

theorem YAMLReadEigenVector_error {d : Doc} {name : String} {n : ℕ} {e : LoadError}
    (h : YAMLReadEigenVector d name n = Except.error e) : e = LoadError.configFormatError := by
  unfold YAMLReadEigenVector at h
  split at h
  · split at h
    · exact Except.noConfusion h
    · cases h
      rfl
  · cases h
    rfl

theorem readKey_error {d : Doc} {k : AeroKey} {e : LoadError}
    (h : readKey d k = Except.error e) : e = LoadError.configFormatError := by
  unfold readKey at h
  split at h
  · split at h
    · exact Except.noConfusion h
    · rename_i e1 heq
      cases h
      exact YAMLReadParam_error heq
  · exact YAMLReadEigenVector_error h

theorem readKey_wrong_arity {d : Doc} {k : AeroKey} {n : ℕ} {l : List ℚ}
    (hk : vectorArity k = some n) (hfind : Doc.find d (keyName k) = some (Yval.seq l))
    (hlen : l.length ≠ n) : readKey d k = Except.error LoadError.configFormatError := by
  unfold readKey
  rw [hk]
  unfold YAMLReadEigenVector
  rw [hfind]
  simp [hlen]

theorem loadAux_error_kind {d : Doc} :
    ∀ (ks : List AeroKey) (s s2 : FWAerodynamicParameters) (e : LoadError),
      loadAux d s ks = (s2, some e) → e = LoadError.configFormatError := by
  intro ks
  induction ks with
  | nil =>
      intro s s2 e h
      simp [loadAux] at h
  | cons k ks ih =>
      intro s s2 e h
      unfold loadAux at h
      split at h
      · exact ih _ _ _ h
      · rename_i e1 heq
        simp only [Prod.mk.injEq, Option.some.injEq] at h
        cases h.2
        exact readKey_error heq

theorem loadAux_ok_read {d : Doc} :
    ∀ (ks : List AeroKey) (s s2 : FWAerodynamicParameters),
      loadAux d s ks = (s2, none) → ∀ k ∈ ks, ∃ l, readKey d k = Except.ok l := by
  intro ks
  induction ks with
  | nil =>
      intro s s2 _ k hk
      exact absurd hk (List.not_mem_nil k)
  | cons k0 ks ih =>
      intro s s2 h k hk
      unfold loadAux at h
      split at h
      · rename_i l heq
        rcases List.mem_cons.mp hk with hk1 | hk2
        · exact ⟨l, hk1 ▸ heq⟩
        · exact ih _ _ h k hk2
      · simp at h

theorem loadAux_split {d : Doc} :
    ∀ (ks : List AeroKey) (s s2 : FWAerodynamicParameters) (e : LoadError),
      loadAux d s ks = (s2, some e) →
      ∃ i, ∃ hi : i < ks.length,
        applyList d s (ks.take i) = Except.ok s2 ∧
        readKey d (ks.get ⟨i, hi⟩) = Except.error e := by
  intro ks
  induction ks with
  | nil =>
      intro s s2 e h
      simp [loadAux] at h
  | cons k0 ks ih =>
      intro s s2 e h
      unfold loadAux at h
      split at h
      · rename_i l heq
        obtain ⟨i, hi, h1, h2⟩ := ih _ _ _ h
        refine ⟨i + 1, Nat.succ_lt_succ hi, ?_, ?_⟩
        · show applyList d s (k0 :: ks.take i) = Except.ok s2
          unfold applyList
          rw [heq]
          exact h1
        · exact h2
      · rename_i e1 heq
        simp only [Prod.mk.injEq, Option.some.injEq] at h
        cases h.2
        refine ⟨0, Nat.succ_pos _, ?_, ?_⟩
        · rw [h.1]
          rfl
        · exact heq

set_option maxHeartbeats 2000000 in
theorem setKey_frame (s : FWAerodynamicParameters) (l : List ℚ) (k k' : AeroKey)
    (hne : k' ≠ k) : getField (setKey s k l) k' = getField s k' := by
  cases k <;> cases k' <;>
    first
    | exact absurd rfl hne
    | (simp only [setKey, getField]; split <;> rfl)

theorem applyList_frame {d : Doc} :
    ∀ (ks : List AeroKey) (s s2 : FWAerodynamicParameters),
      applyList d s ks = Except.ok s2 →
      ∀ k', k' ∉ ks → getField s2 k' = getField s k' := by
  intro ks
  induction ks with
  | nil =>
      intro s s2 h k' _
      cases h
      rfl
  | cons k0 ks ih =>
      intro s s2 h k' hk
      unfold applyList at h
      split at h
      · rename_i l heq
        have h1 : getField s2 k' = getField (setKey s k0 l) k' :=
          ih _ _ h k' (fun hm => hk (List.mem_cons_of_mem _ hm))
        have h2 : k' ≠ k0 := fun hkk => hk (hkk ▸ List.mem_cons_self _ _)
        exact h1.trans (setKey_frame s l k0 k' h2)
      · exact Except.noConfusion h

theorem Doc.find_append_middle (d1 d2 : Doc) (k name : String) (v : Yval)
    (h : name ≠ k) :
    Doc.find (d1 ++ (k, v) :: d2) name = Doc.find (d1 ++ d2) name := by
  induction d1 with
  | nil =>
      simp only [List.nil_append, Doc.find]
      rw [if_neg (fun hh => h hh.symm)]
  | cons p d1 ih =>
      cases p with
      | mk a b =>
          simp only [List.cons_append, Doc.find]
          split
          · rfl
          · exact ih

theorem readKey_congr {d d' : Doc} (kk : AeroKey)
    (h : Doc.find d (keyName kk) = Doc.find d' (keyName kk)) :
    readKey d kk = readKey d' kk := by
  unfold readKey YAMLReadParam YAMLReadEigenVector
  rw [h]

theorem loadAux_congr {d d' : Doc} (hh : ∀ kk : AeroKey, readKey d kk = readKey d' kk) :
    ∀ (ks : List AeroKey) (s : FWAerodynamicParameters),
      loadAux d s ks = loadAux d' s ks := by
  intro ks
  induction ks with
  | nil => intro s; rfl
  | cons k0 ks ih =>
      intro s
      unfold loadAux
      rw [hh k0]
      cases hr : readKey d' k0 with
      | ok l => exact ih (setKey s k0 l)
      | error e => rfl

-- Claim theorems.

/-- C1, counterexample: the claim says a document containing only `alpha_max`
loads successfully; on the code it does not — the very next read
(`alpha_min`, missing) throws, so the call fails. -/
theorem load_only_alpha_max_fails :
    (FWAerodynamicParameters.default.LoadAeroParamsYAML
        (some [("alpha_max", Yval.scalar 1)])).2 ≠ none := by
  have h : (FWAerodynamicParameters.default.LoadAeroParamsYAML
      (some [("alpha_max", Yval.scalar 1)])).2 = some LoadError.configFormatError := rfl
  rw [h]
  exact Option.some_ne_none _

/-- C1 (amended): the loader is not a sparse merge — every recognized key is
read unconditionally, so a present key overwrites its field but an absent
recognized key makes the call fail. Loading a document containing only
`alpha_max` overwrites `alpha_max`, then fails with a format error at
`alpha_min`, leaving every other field unchanged. -/
theorem load_only_alpha_max_sets_then_fails (s : FWAerodynamicParameters) (q : ℚ) :
    s.LoadAeroParamsYAML (some [("alpha_max", Yval.scalar q)]) =
      ({ s with alpha_max := q }, some LoadError.configFormatError) := rfl

/-- C3: loading a nonexistent (or unparseable) path fails with
ConfigLoadError and leaves every field of the store exactly as it was —
`YAML::LoadFile` throws before any field is touched. -/
theorem load_missing_file_error_and_unchanged (p : FWParameters) :
    p.loadAeroParamsYAML none = (p, some LoadError.configLoadError) := rfl

/-- C10: frame property of the load operation — whether it succeeds or fails,
it changes only the aerodynamic substructure; mass, wing geometry, inertia,
throttle channel and all five control surfaces are unchanged. -/
theorem load_frame_non_aero_fields (p : FWParameters) (file : Option Doc) :
    (p.loadAeroParamsYAML file).1.mass_ = p.mass_ ∧
    (p.loadAeroParamsYAML file).1.wing_span_ = p.wing_span_ ∧
    (p.loadAeroParamsYAML file).1.wing_surface_ = p.wing_surface_ ∧
    (p.loadAeroParamsYAML file).1.chord_length_ = p.chord_length_ ∧
    (p.loadAeroParamsYAML file).1.inertia_ = p.inertia_ ∧
    (p.loadAeroParamsYAML file).1.throttle_channel_ = p.throttle_channel_ ∧
    (p.loadAeroParamsYAML file).1.aileron_left_ = p.aileron_left_ ∧
    (p.loadAeroParamsYAML file).1.aileron_right_ = p.aileron_right_ ∧
    (p.loadAeroParamsYAML file).1.elevator_ = p.elevator_ ∧
    (p.loadAeroParamsYAML file).1.flap_ = p.flap_ ∧
    (p.loadAeroParamsYAML file).1.rudder_ = p.rudder_ :=
  ⟨rfl, rfl, rfl, rfl, rfl, rfl, rfl, rfl, rfl, rfl, rfl⟩

/-- C4: default construction fully populates the store with the documented
Techpod reference constants — the physical scalars, the symmetric inertia
tensor entries, the actuator channels, the deflection bounds, the
angle-of-attack range and every named coefficient vector default. -/
theorem default_store_fields :
    FWParameters.default.mass_ = 2.65 ∧
    FWParameters.default.wing_span_ = 2.59 ∧
    FWParameters.default.wing_surface_ = 0.47 ∧
    FWParameters.default.chord_length_ = 0.18 ∧
    FWParameters.default.inertia_.m00 = 0.16632 ∧
    FWParameters.default.inertia_.m01 = 0 ∧
    FWParameters.default.inertia_.m02 = 0.0755 ∧
    FWParameters.default.inertia_.m10 = 0 ∧
    FWParameters.default.inertia_.m11 = 0.3899 ∧
    FWParameters.default.inertia_.m12 = 0 ∧
    FWParameters.default.inertia_.m20 = 0.0755 ∧
    FWParameters.default.inertia_.m21 = 0 ∧
    FWParameters.default.inertia_.m22 = 0.5243 ∧
    FWParameters.default.throttle_channel_ = 5 ∧
    FWParameters.default.aileron_left_.channel = 4 ∧
    FWParameters.default.aileron_right_.channel = 0 ∧
    FWParameters.default.elevator_.channel = 1 ∧
    FWParameters.default.flap_.channel = 2 ∧
    FWParameters.default.rudder_.channel = 3 ∧
    FWParameters.default.aileron_left_.deflection_min = kDefaultControlSurfaceDeflectionMin ∧
    FWParameters.default.aileron_left_.deflection_max = kDefaultControlSurfaceDeflectionMax ∧
    FWParameters.default.aileron_right_.deflection_min = kDefaultControlSurfaceDeflectionMin ∧
    FWParameters.default.aileron_right_.deflection_max = kDefaultControlSurfaceDeflectionMax ∧
    FWParameters.default.elevator_.deflection_min = kDefaultControlSurfaceDeflectionMin ∧
    FWParameters.default.elevator_.deflection_max = kDefaultControlSurfaceDeflectionMax ∧
    FWParameters.default.flap_.deflection_min = kDefaultControlSurfaceDeflectionMin ∧
    FWParameters.default.flap_.deflection_max = kDefaultControlSurfaceDeflectionMax ∧
    FWParameters.default.rudder_.deflection_min = kDefaultControlSurfaceDeflectionMin ∧
    FWParameters.default.rudder_.deflection_max = kDefaultControlSurfaceDeflectionMax ∧
    FWParameters.default.aero_params_.alpha_max = 0.27 ∧
    FWParameters.default.aero_params_.alpha_min = -0.27 ∧
    FWParameters.default.aero_params_.c_drag_alpha = kDefaultCDragAlpha ∧
    FWParameters.default.aero_params_.c_drag_beta = kDefaultCDragBeta ∧
    FWParameters.default.aero_params_.c_drag_delta_ail = kDefaultCDragDeltaAil ∧
    FWParameters.default.aero_params_.c_drag_delta_flp = kDefaultCDragDeltaFlp ∧
    FWParameters.default.aero_params_.c_side_force_beta = kDefaultCSideForceBeta ∧
    FWParameters.default.aero_params_.c_lift_alpha = kDefaultCLiftAlpha ∧
    FWParameters.default.aero_params_.c_lift_delta_ail = kDefaultCLiftDeltaAil ∧
    FWParameters.default.aero_params_.c_lift_delta_flp = kDefaultCLiftDeltaFlp ∧
    FWParameters.default.aero_params_.c_roll_moment_beta = kDefaultCRollMomentBeta ∧
    FWParameters.default.aero_params_.c_roll_moment_p = kDefaultCRollMomentP ∧
    FWParameters.default.aero_params_.c_roll_moment_r = kDefaultCRollMomentR ∧
    FWParameters.default.aero_params_.c_roll_moment_delta_ail = kDefaultCRollMomentDeltaAil ∧
    FWParameters.default.aero_params_.c_roll_moment_delta_flp = kDefaultCRollMomentDeltaFlp ∧
    FWParameters.default.aero_params_.c_pitch_moment_alpha = kDefaultCPitchMomentAlpha ∧
    FWParameters.default.aero_params_.c_pitch_moment_q = kDefaultCPitchMomentQ ∧
    FWParameters.default.aero_params_.c_pitch_moment_delta_elv = kDefaultCPitchMomentDeltaElv ∧
    FWParameters.default.aero_params_.c_yaw_moment_beta = kDefaultCYawMomentBeta ∧
    FWParameters.default.aero_params_.c_yaw_moment_r = kDefaultCYawMomentR ∧
    FWParameters.default.aero_params_.c_yaw_moment_delta_rud = kDefaultCYawMomentDeltaRud ∧
    FWParameters.default.aero_params_.c_thrust = kDefaultCThrust := by
  refine ⟨?_, ?_, ?_, ?_, ?_, ?_, ?_, ?_, ?_, ?_, ?_, ?_, ?_, ?_, ?_, ?_, ?_, ?_, ?_, ?_,
    ?_, ?_, ?_, ?_, ?_, ?_, ?_, ?_, ?_, ?_, ?_, ?_, ?_, ?_, ?_, ?_, ?_, ?_, ?_, ?_,
    ?_, ?_, ?_, ?_, ?_, ?_, ?_, ?_, ?_, ?_, ?_⟩ <;>
    norm_num [FWParameters.default, FWAerodynamicParameters.default, ControlSurface.ctor,
      kDefaultMass, kDefaultWingSpan, kDefaultWingSurface, kDefaultChordLength,
      kDefaultInertiaXx, kDefaultInertiaXy, kDefaultInertiaXz, kDefaultInertiaYy,
      kDefaultInertiaYz, kDefaultInertiaZz, kDefaultThrottleChannel,
      kDefaultAileronLeftChannel, kDefaultAileronRightChannel, kDefaultElevatorChannel,
      kDefaultFlapChannel, kDefaultRudderChannel, kDefaultAlphaMax, kDefaultAlphaMin]

/-- C2: whenever a recognized vector key is present in the document with an
element count different from its field's fixed size, the load fails with
ConfigFormatError (either at that key's size check, or at an earlier key, also
with a format error — a parsed document can only fail with format errors). -/
theorem load_vector_arity_mismatch_fails (d : Doc) (s : FWAerodynamicParameters)
    (k : AeroKey) (n : ℕ) (l : List ℚ) (hk : vectorArity k = some n)
    (hfind : Doc.find d (keyName k) = some (Yval.seq l)) (hlen : l.length ≠ n) :
    (s.LoadAeroParamsYAML (some d)).2 = some LoadError.configFormatError := by
  have hbad : readKey d k = Except.error LoadError.configFormatError :=
    readKey_wrong_arity hk hfind hlen
  have hmem : k ∈ keyOrder := by cases k <;> decide
  show (loadAux d s keyOrder).2 = some LoadError.configFormatError
  cases hres : loadAux d s keyOrder with
  | mk s2 err =>
      cases err with
      | none =>
          exfalso
          obtain ⟨l2, hok⟩ := loadAux_ok_read keyOrder s s2 hres k hmem
          rw [hok] at hbad
          exact Except.noConfusion hbad
      | some e =>
          exact congrArg some (loadAux_error_kind keyOrder s s2 e hres)

/-- C2 witness: `c_thrust` present with 2 elements instead of 3 makes the load
fail with a format error. -/
theorem load_vector_arity_mismatch_fails_witness :
    vectorArity AeroKey.c_thrust = some 3 ∧
    Doc.find [("c_thrust", Yval.seq [1, 2])] (keyName AeroKey.c_thrust) =
      some (Yval.seq [1, 2]) ∧
    ([1, 2] : List ℚ).length ≠ 3 ∧
    (FWAerodynamicParameters.default.LoadAeroParamsYAML
        (some [("c_thrust", Yval.seq [1, 2])])).2 = some LoadError.configFormatError :=
  ⟨rfl, rfl, by decide,
    load_vector_arity_mismatch_fails _ _ AeroKey.c_thrust 3 [1, 2] rfl rfl (by decide)⟩

/-- C6: the loader reads the recognized keys in the one fixed sequence
`keyOrder`; if the call fails, there is a position `i` such that the returned
state is exactly the starting state with the first `i` keys applied, the read
of key `i` is what failed, and the fields of every key from position `i` on
are untouched (no rollback — a mixed state). -/
theorem load_failure_prefix_applied_suffix_untouched (d : Doc)
    (s s2 : FWAerodynamicParameters) (e : LoadError)
    (h : s.LoadAeroParamsYAML (some d) = (s2, some e)) :
    ∃ i, ∃ hi : i < keyOrder.length,
      applyList d s (keyOrder.take i) = Except.ok s2 ∧
      readKey d (keyOrder.get ⟨i, hi⟩) = Except.error e ∧
      ∀ k ∈ keyOrder.drop i, getField s2 k = getField s k := by
  have h2 : loadAux d s keyOrder = (s2, some e) := h
  obtain ⟨i, hi, h3, h4⟩ := loadAux_split keyOrder s s2 e h2
  refine ⟨i, hi, h3, h4, ?_⟩
  intro k hk
  have hnd : keyOrder.Nodup := by decide
  have hnd2 : (keyOrder.take i ++ keyOrder.drop i).Nodup := by
    rw [List.take_append_drop]
    exact hnd
  have hdisj := (List.nodup_append.mp hnd2).2.2
  exact applyList_frame (keyOrder.take i) s s2 h3 k (fun hmem => hdisj hmem hk)

/-- C6 witness: the empty document fails (at the very first key), the returned
state is the unchanged starting state, and every field is untouched. -/
theorem load_failure_prefix_applied_suffix_untouched_witness :
    ∃ i, ∃ hi : i < keyOrder.length,
      applyList [] FWAerodynamicParameters.default (keyOrder.take i) =
        Except.ok FWAerodynamicParameters.default ∧
      readKey [] (keyOrder.get ⟨i, hi⟩) = Except.error LoadError.configFormatError ∧
      ∀ k ∈ keyOrder.drop i,
        getField FWAerodynamicParameters.default k =
          getField FWAerodynamicParameters.default k :=
  load_failure_prefix_applied_suffix_untouched [] _ _ _ rfl

/-- C7: adding a binding for a key outside the recognized set anywhere in the
document changes neither the resulting state nor the success/failure outcome
of the load. -/
theorem load_ignores_unrecognized_keys (d1 d2 : Doc) (k : String) (v : Yval)
    (s : FWAerodynamicParameters) (hk : ∀ kk : AeroKey, keyName kk ≠ k) :
    s.LoadAeroParamsYAML (some (d1 ++ (k, v) :: d2)) =
      s.LoadAeroParamsYAML (some (d1 ++ d2)) := by
  show loadAux (d1 ++ (k, v) :: d2) s keyOrder = loadAux (d1 ++ d2) s keyOrder
  exact loadAux_congr
    (fun kk => readKey_congr kk (Doc.find_append_middle d1 d2 k (keyName kk) v (hk kk)))
    keyOrder s

/-- C7 witness: a document holding only one unrecognized key loads exactly
like the empty document. -/
theorem load_ignores_unrecognized_keys_witness :
    (∀ kk : AeroKey, keyName kk ≠ "not_a_recognized_key") ∧
    FWAerodynamicParameters.default.LoadAeroParamsYAML
        (some ([] ++ ("not_a_recognized_key", Yval.scalar 0) :: [])) =
      FWAerodynamicParameters.default.LoadAeroParamsYAML (some ([] ++ [])) :=
  ⟨by decide, load_ignores_unrecognized_keys [] [] _ _ _ (by decide)⟩

/-- C8: the inertia tensor of every store the program can construct (default
construction followed by any sequence of loads) is symmetric — the three
off-diagonal components are each stored once and mirrored, and the load
operation never touches the inertia matrix. -/
theorem reachable_inertia_symmetric (p : FWParameters) (h : p.Reachable) :
    ∀ i j : Fin 3, p.inertia_.get i j = p.inertia_.get j i := by
  induction h with
  | dflt =>
      intro i j
      fin_cases i <;> fin_cases j <;> rfl
  | load p file hp ih => exact ih

/-- C8 witness: symmetry instantiated at the default store at entry (0, 2). -/
theorem reachable_inertia_symmetric_witness :
    FWParameters.default.inertia_.get 0 2 = FWParameters.default.inertia_.get 2 0 :=
  reachable_inertia_symmetric FWParameters.default FWParameters.Reachable.dflt 0 2

/-- C9, counterexample: the ControlSurface constructor validates nothing, so
an instance with `deflection_min > deflection_max` is constructible — the
claim is false for arbitrary instances. -/
theorem control_surface_ctor_violates_range :
    ¬ ((ControlSurface.ctor 0 1 0).deflection_min ≤
        (ControlSurface.ctor 0 1 0).deflection_max) := by
  norm_num [ControlSurface.ctor]

/-- C9 (amended): every control surface of a store the program can construct
(default construction, then loads, which do not touch the surfaces) satisfies
`deflection_min ≤ deflection_max`; arbitrary ControlSurface instances need
not, since the constructor does not enforce the range. -/
theorem reachable_control_surfaces_range_ordered (p : FWParameters) (h : p.Reachable) :
    p.aileron_left_.deflection_min ≤ p.aileron_left_.deflection_max ∧
    p.aileron_right_.deflection_min ≤ p.aileron_right_.deflection_max ∧
    p.elevator_.deflection_min ≤ p.elevator_.deflection_max ∧
    p.flap_.deflection_min ≤ p.flap_.deflection_max ∧
    p.rudder_.deflection_min ≤ p.rudder_.deflection_max := by
  induction h with
  | dflt =>
      have hc : kDefaultControlSurfaceDeflectionMin ≤ kDefaultControlSurfaceDeflectionMax := by
        norm_num [kDefaultControlSurfaceDeflectionMin, kDefaultControlSurfaceDeflectionMax, mPi]
      exact ⟨hc, hc, hc, hc, hc⟩
  | load p file hp ih => exact ih

/-- C9 witness: the ordered deflection range of the default store's left
aileron. -/
theorem reachable_control_surfaces_range_ordered_witness :
    FWParameters.default.aileron_left_.deflection_min ≤
      FWParameters.default.aileron_left_.deflection_max :=
  (reachable_control_surfaces_range_ordered FWParameters.default
    FWParameters.Reachable.dflt).1

/-- C5: a document that supplies all 20 vector keys with the correct arity and
both scalar keys loads successfully, and afterwards every field equals the
supplied value. The hypotheses constrain only key lookup, so the result is
independent of the order in which the keys are declared in the document. -/
theorem load_all_keys_success (d : Doc) (s : FWAerodynamicParameters)
    {qmax qmin da1 da2 da3 db1 db2 db3 dda1 dda2 dda3 ddf1 ddf2 ddf3 sf1 sf2
     la1 la2 la3 la4 lda1 lda2 ldf1 ldf2 rb1 rb2 rp1 rp2 rr1 rr2 rda1 rda2
     rdf1 rdf2 pa1 pa2 pq1 pq2 pde1 pde2 yb1 yb2 yr1 yr2 ydr1 ydr2 t1 t2 t3 : ℚ}
    (h1 : Doc.find d (keyName AeroKey.alpha_max) = some (Yval.scalar qmax))
    (h2 : Doc.find d (keyName AeroKey.alpha_min) = some (Yval.scalar qmin))
    (h3 : Doc.find d (keyName AeroKey.c_drag_alpha) = some (Yval.seq [da1, da2, da3]))
    (h4 : Doc.find d (keyName AeroKey.c_drag_beta) = some (Yval.seq [db1, db2, db3]))
    (h5 : Doc.find d (keyName AeroKey.c_drag_delta_ail) = some (Yval.seq [dda1, dda2, dda3]))
    (h6 : Doc.find d (keyName AeroKey.c_drag_delta_flp) = some (Yval.seq [ddf1, ddf2, ddf3]))
    (h7 : Doc.find d (keyName AeroKey.c_side_force_beta) = some (Yval.seq [sf1, sf2]))
    (h8 : Doc.find d (keyName AeroKey.c_lift_alpha) = some (Yval.seq [la1, la2, la3, la4]))
    (h9 : Doc.find d (keyName AeroKey.c_lift_delta_ail) = some (Yval.seq [lda1, lda2]))
    (h10 : Doc.find d (keyName AeroKey.c_lift_delta_flp) = some (Yval.seq [ldf1, ldf2]))
    (h11 : Doc.find d (keyName AeroKey.c_roll_moment_beta) = some (Yval.seq [rb1, rb2]))
    (h12 : Doc.find d (keyName AeroKey.c_roll_moment_p) = some (Yval.seq [rp1, rp2]))
    (h13 : Doc.find d (keyName AeroKey.c_roll_moment_r) = some (Yval.seq [rr1, rr2]))
    (h14 : Doc.find d (keyName AeroKey.c_roll_moment_delta_ail) = some (Yval.seq [rda1, rda2]))
    (h15 : Doc.find d (keyName AeroKey.c_roll_moment_delta_flp) = some (Yval.seq [rdf1, rdf2]))
    (h16 : Doc.find d (keyName AeroKey.c_pitch_moment_alpha) = some (Yval.seq [pa1, pa2]))
    (h17 : Doc.find d (keyName AeroKey.c_pitch_moment_q) = some (Yval.seq [pq1, pq2]))
    (h18 : Doc.find d (keyName AeroKey.c_pitch_moment_delta_elv) = some (Yval.seq [pde1, pde2]))
    (h19 : Doc.find d (keyName AeroKey.c_yaw_moment_beta) = some (Yval.seq [yb1, yb2]))
    (h20 : Doc.find d (keyName AeroKey.c_yaw_moment_r) = some (Yval.seq [yr1, yr2]))
    (h21 : Doc.find d (keyName AeroKey.c_yaw_moment_delta_rud) = some (Yval.seq [ydr1, ydr2]))
    (h22 : Doc.find d (keyName AeroKey.c_thrust) = some (Yval.seq [t1, t2, t3])) :
    s.LoadAeroParamsYAML (some d) =
      (⟨qmax, qmin, ⟨da1, da2, da3⟩, ⟨db1, db2, db3⟩, ⟨dda1, dda2, dda3⟩, ⟨ddf1, ddf2, ddf3⟩,
        ⟨sf1, sf2⟩, ⟨la1, la2, la3, la4⟩, ⟨lda1, lda2⟩, ⟨ldf1, ldf2⟩, ⟨rb1, rb2⟩, ⟨rp1, rp2⟩,
        ⟨rr1, rr2⟩, ⟨rda1, rda2⟩, ⟨rdf1, rdf2⟩, ⟨pa1, pa2⟩, ⟨pq1, pq2⟩, ⟨pde1, pde2⟩,
        ⟨yb1, yb2⟩, ⟨yr1, yr2⟩, ⟨ydr1, ydr2⟩, ⟨t1, t2, t3⟩⟩, none) := by
  show loadAux d s keyOrder = _
  simp [keyOrder, loadAux, readKey, vectorArity, YAMLReadParam, YAMLReadEigenVector, setKey,
    h1, h2, h3, h4, h5, h6, h7, h8, h9, h10, h11, h12, h13, h14, h15, h16, h17, h18, h19,
    h20, h21, h22]

/-- C5 witness: the sentinel document (all 22 keys, distinct values, declared
in reverse reading order) loads successfully and sets every field to its
sentinel. -/
theorem load_all_keys_success_witness :
    FWAerodynamicParameters.default.LoadAeroParamsYAML (some sentinelDoc) =
      (⟨101, 102, ⟨103, 104, 105⟩, ⟨106, 107, 108⟩, ⟨109, 110, 111⟩, ⟨112, 113, 114⟩,
        ⟨115, 116⟩, ⟨117, 118, 119, 120⟩, ⟨121, 122⟩, ⟨123, 124⟩, ⟨125, 126⟩, ⟨127, 128⟩,
        ⟨129, 130⟩, ⟨131, 132⟩, ⟨133, 134⟩, ⟨135, 136⟩, ⟨137, 138⟩, ⟨139, 140⟩,
        ⟨141, 142⟩, ⟨143, 144⟩, ⟨145, 146⟩, ⟨147, 148, 149⟩⟩, none) :=
  load_all_keys_success sentinelDoc FWAerodynamicParameters.default rfl rfl rfl rfl rfl rfl
    rfl rfl rfl rfl rfl rfl rfl rfl rfl rfl rfl rfl rfl rfl rfl rfl
